import Mathlib

/-!
Shallow embedding of `src/undocker/main.py` (undock-compose): the `UnDocker`
class converting an unRAID Docker XML template into a compose document.

Modelling conventions:
* An XML element (`xml.etree.ElementTree.Element`) is an `Element`: tag name,
  attribute association list, optional text (`None` text is `Option.none`).
* The parsed template tree is the list of the root element's direct children,
  since `ElementTree.find`/`findall` with a plain tag name search direct
  children of the root only.
* Python exceptions are an explicit `PyErr`; fallible code returns
  `Except PyErr`.
* Python `dict` is an insertion-ordered association list; `d[k] = v`
  overwrites in place when the key exists and appends otherwise, matching
  CPython semantics.  Keys may be `None` in the source (`attrib.get` misses),
  so dict keys are `Option String`.
-/

set_option autoImplicit false

/-- Python exceptions that the translated code can raise. -/
inductive PyErr where
  /-- `AttributeError`: attribute access on `None` (e.g. `None.text`,
  `None.replace`). -/
  | attributeError : PyErr
  /-- `ValueError`: `int()` applied to a string that is not a valid integer
  literal. -/
  | valueError : PyErr
  /-- `TypeError`: `int()` applied to `None`. -/
  | typeError : PyErr
  /-- `NameError`: reference to an undefined name (the global `args` in
  `_extra_params`). -/
  | nameError : PyErr
  /-- `SystemExit`: `argparse` aborting on a flag that is missing its
  argument. -/
  | systemExit : PyErr
deriving Repr, DecidableEq

/-- One XML element: tag, attributes (as `Element.attrib`), optional text. -/
structure Element where
  tag : String
  attrib : List (String × String)
  text : Option String
deriving Repr, DecidableEq

/-- The parsed template: the root element's direct children in document
order. -/
abbrev XMLTree := List Element

/-- `ElementTree.find(tag)`: first direct child with the given tag, `None`
when absent. -/
def ET.find (tree : XMLTree) (t : String) : Option Element :=
  tree.find? (fun el => el.tag == t)

/-- `ElementTree.findall(tag)`: all direct children with the given tag, in
document order. -/
def ET.findall (tree : XMLTree) (t : String) : List Element :=
  tree.filter (fun el => el.tag == t)

/-- `element.attrib.get(key)`: the attribute value, `None` when absent. -/
def attrGet (e : Element) (k : String) : Option String :=
  (e.attrib.find? (fun p => p.1 == k)).map (fun p => p.2)

/-- Python truthiness of an `Optional[str]`: `None` and the empty string are
falsy. -/
def pyTruthy : Option String → Bool
  | none => false
  | some s => s != ""

/-- Python f-string interpolation of an `Optional[str]`: `None` prints as
the literal text `None`. -/
def pyFStr : Option String → String
  | none => "None"
  | some s => s

/-! ### Python dict as an insertion-ordered association list -/

/-- `d[k]` as an option: the value at the first (unique) occurrence of `k`. -/
def dictGet {K V : Type} [BEq K] (d : List (K × V)) (k : K) : Option V :=
  (d.find? (fun p => p.1 == k)).map (fun p => p.2)

/-- `d[k] = v`: overwrite in place when the key exists, append otherwise. -/
def dictSet {K V : Type} [BEq K] (d : List (K × V)) (k : K) (v : V) :
    List (K × V) :=
  if d.any (fun p => p.1 == k) then
    d.map (fun p => if p.1 == k then (k, v) else p)
  else
    d ++ [(k, v)]

/-- `d.update(m)`: assign each binding of `m` into `d`, in order. -/
def dictUpdate {K V : Type} [BEq K] (d m : List (K × V)) : List (K × V) :=
  m.foldl (fun acc p => dictSet acc p.1 p.2) d

/-! ### String helpers translated from the source -/

/-- `value.replace("$", "$$")` (line 130/132): a single-character pattern, so
each `$` character becomes `$$` and every other character is kept. -/
def escapeDollar (s : String) : String :=
  ⟨s.data.foldr (fun c acc => if c = '$' then '$' :: '$' :: acc else c :: acc) []⟩

/-- `name.replace(" ", "_")` (line 126): single characters on both sides, a
character-wise map. -/
def replaceSpaces (s : String) : String :=
  ⟨s.data.map (fun c => if c = ' ' then '_' else c)⟩

/-- Helper for `pySplit`: walk the characters keeping the (reversed) current
token, emitting it at each whitespace run and at the end. -/
def splitWsAux : List Char → List Char → List String
  | [], cur => if cur.isEmpty then [] else [⟨cur.reverse⟩]
  | c :: cs, cur =>
    if c.isWhitespace then
      (if cur.isEmpty then [] else [⟨cur.reverse⟩]) ++ splitWsAux cs []
    else splitWsAux cs (c :: cur)

/-- `params.split()` (line 105): split on whitespace runs, dropping empty
tokens. -/
def pySplit (s : String) : List String :=
  splitWsAux s.data []

/-- Digits of a Python integer literal after the first digit: single
underscores are allowed between digits. -/
def pyIntDigits : List Char → Nat → Option Nat
  | [], acc => some acc
  | '_' :: c :: cs, acc =>
    if c.isDigit then pyIntDigits cs (acc * 10 + (c.toNat - 48)) else none
  | ['_'], _ => none
  | c :: cs, acc =>
    if c.isDigit then pyIntDigits cs (acc * 10 + (c.toNat - 48)) else none

/-- An unsigned run of digits: nonempty, starts with a digit. -/
def pyIntCore : List Char → Option Nat
  | [] => none
  | c :: cs => if c.isDigit then pyIntDigits cs (c.toNat - 48) else none

/-- Strip leading and trailing whitespace from a character list. -/
def stripWs (l : List Char) : List Char :=
  ((l.dropWhile Char.isWhitespace).reverse.dropWhile Char.isWhitespace).reverse

/-- `int(s)` on a string: strip surrounding whitespace, optional sign,
decimal digits (underscore separators allowed); raises `ValueError`
otherwise. -/
def pyIntOfString (s : String) : Except PyErr Int :=
  match stripWs s.data with
  | '-' :: rest =>
    match pyIntCore rest with
    | some n => .ok (-(n : Int))
    | none => .error .valueError
  | '+' :: rest =>
    match pyIntCore rest with
    | some n => .ok (n : Int)
    | none => .error .valueError
  | cs =>
    match pyIntCore cs with
    | some n => .ok (n : Int)
    | none => .error .valueError

/-- `int(x)` on an `Optional[str]`: `int(None)` raises `TypeError`. -/
def pyInt : Option String → Except PyErr Int
  | none => .error .typeError
  | some s => pyIntOfString s

namespace UnDocker

/-- `UnDocker._tag` (lines 38-49): `self.tree.find(tag).text`.  When the tag
is absent `find` returns `None` and the `.text` access raises
`AttributeError`; when the element exists, its text is returned if truthy
and the empty string otherwise. -/
def tagText (tree : XMLTree) (t : String) : Except PyErr String :=
  match ET.find tree t with
  | none => .error .attributeError
  | some el => if pyTruthy el.text then .ok (el.text.getD "") else .ok ""

/-- The effective value of a Config entry (lines 128-132): the entry text
when truthy, escaped; else `Default` escaped — `None.replace` raising
`AttributeError` when `Default` is absent. -/
def effValue (c : Element) : Except PyErr String :=
  if pyTruthy c.text then .ok (escapeDollar (c.text.getD ""))
  else
    match attrGet c "Default" with
    | some d => .ok (escapeDollar d)
    | none => .error .attributeError

/-- The `protocol` field of a port record (line 140):
`get("Mode") if get("Mode") else ""`. -/
def modeOrEmpty (c : Element) : String :=
  if pyTruthy (attrGet c "Mode") then (attrGet c "Mode").getD "" else ""

/-- The optional `:Mode` suffix of a volume or device spec (lines 147, 153):
appended only when `get("Mode")` is truthy. -/
def modeSuffix (c : Element) : String :=
  if pyTruthy (attrGet c "Mode") then ":" ++ pyFStr (attrGet c "Mode") else ""

/-- One entry of the `ports` list (lines 136-142). -/
structure PortRec where
  target : Int
  published : Int
  protocol : String
deriving Repr, DecidableEq

/-- The five collections built by `UnDocker._configs`, in the order of their
local declarations (lines 118-122). -/
structure Configs where
  ports : List PortRec
  volumes : List String
  devices : List String
  environment : List (Option String × String)
  labels : List (Option String × Option String)
deriving Repr, DecidableEq

/-- The initial (empty) collections of `_configs`. -/
def emptyConfigs : Configs := ⟨[], [], [], [], []⟩

/-- The five extended labels merged for one entry when the labels flag is
set (lines 164-173): a dict literal under the entry's header, copying the
`Default`, `Description`, `Display`, `Required` and `Mask` attributes
verbatim (absent attributes stay `None`). -/
def extendedLabels (header : String) (c : Element) :
    List (Option String × Option String) :=
  [(some (header ++ ".default"), attrGet c "Default"),
   (some (header ++ ".description"), attrGet c "Description"),
   (some (header ++ ".display"), attrGet c "Display"),
   (some (header ++ ".required"), attrGet c "Required"),
   (some (header ++ ".mask"), attrGet c "Mask")]

/-- The loop body of `UnDocker._configs` (lines 124-173) for one Config
entry: compute the label header (raising `AttributeError` when the `Name`
attribute is absent), the effective value, route by `Type`, then merge the
five extended labels when the labels flag is set. -/
def configStep (configLabels : Bool) (st : Configs) (c : Element) :
    Except PyErr Configs := do
  let header ←
    match attrGet c "Name" with
    | some n => Except.ok ("net.unraid.docker.config." ++ replaceSpaces n)
    | none => Except.error PyErr.attributeError
  let value ← effValue c
  let st ←
    if attrGet c "Type" == some "Port" then do
      let tgt ← pyInt (attrGet c "Target")
      let pub ← pyIntOfString value
      Except.ok { st with ports := st.ports ++ [⟨tgt, pub, modeOrEmpty c⟩] }
    else
      Except.ok st
  let st :=
    if attrGet c "Type" == some "Path" then
      { st with volumes :=
          st.volumes ++ [value ++ ":" ++ pyFStr (attrGet c "Target") ++ modeSuffix c] }
    else st
  let st :=
    if attrGet c "Type" == some "Devices" then
      { st with devices :=
          st.devices ++ [value ++ ":" ++ pyFStr (attrGet c "Target") ++ modeSuffix c] }
    else st
  let st :=
    if attrGet c "Type" == some "Variable" then
      { st with environment := dictSet st.environment (attrGet c "Target") value }
    else st
  let st :=
    if attrGet c "Type" == some "Label" then
      { st with labels := dictSet st.labels (attrGet c "Target") (some value) }
    else st
  let st :=
    if configLabels then
      { st with labels := dictUpdate st.labels (extendedLabels header c) }
    else st
  return st

/-- `UnDocker._configs` (lines 112-174): fold the loop body over every
`Config` child in document order. -/
def configs (tree : XMLTree) (configLabels : Bool) : Except PyErr Configs :=
  (ET.findall tree "Config").foldlM (configStep configLabels) emptyConfigs

/-- The tuple `_configs` actually returns (line 174):
`return ports, volumes, environment, labels, devices`. -/
def configsTuple (tree : XMLTree) (configLabels : Bool) :
    Except PyErr (List PortRec × List String × List (Option String × String)
      × List (Option String × Option String) × List String) :=
  (configs tree configLabels).map
    (fun s => (s.ports, s.volumes, s.environment, s.labels, s.devices))

/-- `UnDocker._unraid_labels` (lines 51-72): the synthesized label mapping, a
dict literal whose values are read in source order. -/
def unraidLabels (tree : XMLTree) :
    Except PyErr (List (Option String × Option String)) := do
  let registry ← tagText tree "Registry"
  let shell ← tagText tree "Shell"
  let support ← tagText tree "Support"
  let project ← tagText tree "Project"
  let overview ← tagText tree "Overview"
  let category ← tagText tree "Category"
  let icon ← tagText tree "Icon"
  let webui ← tagText tree "WebUI"
  let template ← tagText tree "TemplateURL"
  let installed ← tagText tree "DateInstalled"
  let donateText ← tagText tree "DonateText"
  let donateLink ← tagText tree "DonateLink"
  let requires ← tagText tree "Requires"
  return [(some "net.unraid.docker.registry", some registry),
          (some "net.unraid.docker.shell", some shell),
          (some "net.unraid.docker.support", some support),
          (some "net.unraid.docker.project", some project),
          (some "net.unraid.docker.overview", some overview),
          (some "net.unraid.docker.category", some category),
          (some "net.unraid.docker.icon", some icon),
          (some "net.unraid.docker.webui", some webui),
          (some "net.unraid.docker.managed", some "compose"),
          (some "net.unraid.docker.template", some template),
          (some "net.unraid.docker.installed", some installed),
          (some "net.unraid.docker.donate.text", some donateText),
          (some "net.unraid.docker.donate.link", some donateLink),
          (some "net.unraid.docker.requires", some requires)]

/-- `UnDocker._unraid_environment` (lines 74-85): the synthesized default
environment. -/
def unraidEnvironment (tree : XMLTree) :
    Except PyErr (List (Option String × String)) := do
  let name ← tagText tree "Name"
  let name2 ← tagText tree "Name"
  return [(some "TZ", "UTC"),
          (some "HOST_OS", "Unraid"),
          (some "HOST_HOSTNAME", name),
          (some "HOST_CONTAINERNAME", name2)]

/-- The assembled service record (lines 198-212), fields in dict-literal
order. -/
structure Service where
  container_name : String
  image : String
  privileged : Bool
  ports : List PortRec
  volumes : List String
  environment : List (Option String × String)
  labels : List (Option String × Option String)
  devices : List String
  networks : List String
  cpuset : String
  command : String
deriving Repr, DecidableEq

/-- `UnDocker.services` (lines 189-212): unpack
`ports, volumes, environment, labels, devices = self._configs()`, merge the
synthesized labels and environment on top, and build the single service
keyed by the `Name` tag.  Tag reads happen in Python evaluation order (the
dict key first, then the values top to bottom). -/
def services (tree : XMLTree) (configLabels : Bool) :
    Except PyErr (String × Service) := do
  let cfg ← configs tree configLabels
  let ul ← unraidLabels tree
  let labels := dictUpdate cfg.labels ul
  let ue ← unraidEnvironment tree
  let environment := dictUpdate cfg.environment ue
  let key ← tagText tree "Name"
  let cname ← tagText tree "Name"
  let image ← tagText tree "Repository"
  let priv ← tagText tree "Privileged"
  let net ← tagText tree "Network"
  let cpuset ← tagText tree "CPUset"
  let command ← tagText tree "PostArgs"
  return (key,
    { container_name := cname
      image := image
      privileged := !(priv == "false")
      ports := cfg.ports
      volumes := cfg.volumes
      environment := environment
      labels := labels
      devices := cfg.devices
      networks := [net]
      cpuset := cpuset
      command := command })

/-- The two destinations recognised by the `argparse` parser inside
`UnDocker._extra_params` (lines 99-105): `--restart` with dest `restart`,
`--net`/`--network` with dest `networks`. -/
structure ExtraArgs where
  restart : Option String
  networks : Option String
deriving Repr, DecidableEq

/-- `parse_known_args` over the token list for the two declared options:
a recognised flag consumes the next token as its value (`--flag=value` also
accepted), aborting when the value is missing; every other token is
collected as an extra and discarded.  (argparse prefix abbreviation is not
modelled; no claim exercises it.) -/
def scanExtra : List String → ExtraArgs → Except PyErr ExtraArgs
  | [], acc => .ok acc
  | t :: rest, acc =>
    if t == "--restart" then
      match rest with
      | v :: rest2 => scanExtra rest2 { acc with restart := some v }
      | [] => .error .systemExit
    else if t == "--net" || t == "--network" then
      match rest with
      | v :: rest2 => scanExtra rest2 { acc with networks := some v }
      | [] => .error .systemExit
    else if t.startsWith "--restart=" then
      scanExtra rest { acc with restart := some (t.drop 10) }
    else if t.startsWith "--net=" then
      scanExtra rest { acc with networks := some (t.drop 6) }
    else if t.startsWith "--network=" then
      scanExtra rest { acc with networks := some (t.drop 10) }
    else
      scanExtra rest acc

/-- `UnDocker._extra_params` (lines 87-110): parse the token list, then loop
over `docker_args._get_kwargs()` — the `(dest, value)` pairs sorted by dest,
so `networks` before `restart`.  For each truthy value the body evaluates
`args.__getattribute__(attr[0])`, but no global `args` exists anywhere in
the module, so the first truthy value raises `NameError`; with no truthy
value the loop body never runs and the empty dict is returned. -/
def extraParams (params : String) : Except PyErr (List (String × String)) := do
  let parsed ← scanExtra (pySplit params) ⟨none, none⟩
  if pyTruthy parsed.networks then
    Except.error PyErr.nameError
  else if pyTruthy parsed.restart then
    Except.error PyErr.nameError
  else
    Except.ok []

end UnDocker

/-! ### General lemmas about the embedding -/

theorem bind_ok_inv {ε α β : Type} {x : Except ε α} {f : α → Except ε β} {b : β}
    (h : x >>= f = Except.ok b) : ∃ a, x = Except.ok a ∧ f a = Except.ok b := by
  cases x with
  | error e => simp [Bind.bind, Except.bind] at h
  | ok a => exact ⟨a, rfl, by simpa [Bind.bind, Except.bind] using h⟩

theorem bind_error_absorb {ε α β : Type} {x : Except ε α} {f : α → Except ε β}
    {e : ε} (h : x = Except.error e) : x >>= f = Except.error e := by
  subst h; rfl

theorem ok_bind {ε α β : Type} (a : α) (f : α → Except ε β) :
    (Except.ok a >>= f) = f a := rfl

theorem error_bind {ε α β : Type} (e : ε) (f : α → Except ε β) :
    ((Except.error e : Except ε α) >>= f) = Except.error e := rfl

/-- Looking up the key just assigned returns the assigned value. -/
theorem dictGet_dictSet_self {K V : Type} [BEq K] [LawfulBEq K]
    (d : List (K × V)) (k : K) (v : V) : dictGet (dictSet d k v) k = some v := by
  unfold dictSet
  split
  case isTrue hany =>
    induction d with
    | nil => simp at hany
    | cons p rest ih =>
      by_cases hp : p.1 == k
      · simp [dictGet, List.find?, hp]
      · simp only [List.any_cons, hp, Bool.false_or] at hany
        simpa [dictGet, List.find?, hp] using ih hany
  case isFalse hany =>
    induction d with
    | nil => simp [dictGet]
    | cons p rest ih =>
      simp only [List.any_cons, Bool.or_eq_true, not_or] at hany
      simpa [dictGet, List.find?, hany.1] using ih hany.2

/-- Unfolding lemma: lookup in a cons cell. -/
theorem dictGet_cons {K V : Type} [BEq K] (q : K × V) (l : List (K × V)) (k : K) :
    dictGet (q :: l) k = if q.1 == k then some q.2 else dictGet l k := by
  by_cases h : q.1 == k <;> simp [dictGet, List.find?_cons, h]

/-- Overwriting key `k` in place does not disturb the binding of `k2 ≠ k`. -/
theorem dictGet_map_set_ne {K V : Type} [BEq K] [LawfulBEq K]
    (d : List (K × V)) (k k2 : K) (v : V) (hne : k2 ≠ k) :
    dictGet (d.map (fun p => if p.1 == k then (k, v) else p)) k2 = dictGet d k2 := by
  induction d with
  | nil => rfl
  | cons p rest ih =>
    simp only [List.map_cons]
    by_cases hp : p.1 == k
    · have hpk : p.1 = k := by simpa using hp
      have h1 : (k == k2) = false := by
        simp only [beq_eq_false_iff_ne]
        exact fun hk => hne hk.symm
      have h2 : (p.1 == k2) = false := by rw [hpk]; exact h1
      rw [if_pos hp, dictGet_cons, dictGet_cons, h1, h2]
      simpa using ih
    · rw [if_neg hp, dictGet_cons, dictGet_cons]
      by_cases hp2 : p.1 == k2
      · simp [hp2]
      · simp only [hp2, Bool.false_eq_true, if_false]
        exact ih

/-- Assigning one key leaves every other key's binding unchanged. -/
theorem dictGet_dictSet_ne {K V : Type} [BEq K] [LawfulBEq K]
    (d : List (K × V)) (k k2 : K) (v : V) (hne : k2 ≠ k) :
    dictGet (dictSet d k v) k2 = dictGet d k2 := by
  unfold dictSet
  split
  case isTrue hany => exact dictGet_map_set_ne d k k2 v hne
  case isFalse hany =>
    have hk2 : (k == k2) = false := by
      simp only [beq_eq_false_iff_ne]
      exact fun hk => hne hk.symm
    simp [dictGet, List.find?_append, List.find?, hk2]

/-- Updating with a dict that nowhere binds `k` leaves `k` unchanged. -/
theorem dictGet_dictUpdate_not_mem {K V : Type} [BEq K] [LawfulBEq K]
    (m : List (K × V)) (k : K) (hk : ∀ p ∈ m, p.1 ≠ k) (d : List (K × V)) :
    dictGet (dictUpdate d m) k = dictGet d k := by
  induction m generalizing d with
  | nil => rfl
  | cons p rest ih =>
    have hp : p.1 ≠ k := hk p (List.mem_cons_self p rest)
    have hrest : ∀ q ∈ rest, q.1 ≠ k := fun q hq => hk q (List.mem_cons_of_mem p hq)
    show dictGet (dictUpdate (dictSet d p.1 p.2) rest) k = dictGet d k
    rw [ih hrest, dictGet_dictSet_ne d p.1 k p.2 (fun h => hp h.symm)]

/-- After `d.update(m)` with `m` having pairwise-distinct keys, every key
bound in `m` carries the value `m` gives it: the update wins on collision. -/
theorem dictGet_dictUpdate_mem {K V : Type} [BEq K] [LawfulBEq K]
    (m : List (K × V)) (hnd : (m.map Prod.fst).Nodup) (k : K) (v : V)
    (hv : dictGet m k = some v) (d : List (K × V)) :
    dictGet (dictUpdate d m) k = some v := by
  induction m generalizing d with
  | nil => simp [dictGet] at hv
  | cons p rest ih =>
    simp only [List.map_cons, List.nodup_cons] at hnd
    by_cases hp : p.1 == k
    · have hkp : p.1 = k := by simpa using hp
      have hval : v = p.2 := by
        simp [dictGet, List.find?, hp] at hv
        exact hv.symm
      have hrest : ∀ q ∈ rest, q.1 ≠ k :=
        fun q hq hqk => hnd.1 (by rw [← hkp] at hqk; exact hqk ▸ List.mem_map_of_mem Prod.fst hq)
      show dictGet (dictUpdate (dictSet d p.1 p.2) rest) k = some v
      rw [dictGet_dictUpdate_not_mem rest k hrest, hkp, dictGet_dictSet_self, hval]
    · have hv2 : dictGet rest k = some v := by simpa [dictGet, List.find?, hp] using hv
      exact ih hnd.2 hv2 (dictSet d p.1 p.2)

/-- Inversion of a successful `services` run: every tag read succeeded and
the service record is assembled exactly as on lines 195-212, with the
synthesized labels and environment merged on top of the classifier's. -/
theorem services_ok_inv (tree : XMLTree) (cl : Bool) (n : String)
    (svc : UnDocker.Service)
    (h : UnDocker.services tree cl = Except.ok (n, svc)) :
    ∃ cfg ul ue name repo priv net cpus cmd,
      UnDocker.configs tree cl = Except.ok cfg ∧
      UnDocker.unraidLabels tree = Except.ok ul ∧
      UnDocker.unraidEnvironment tree = Except.ok ue ∧
      UnDocker.tagText tree "Name" = Except.ok name ∧
      UnDocker.tagText tree "Repository" = Except.ok repo ∧
      UnDocker.tagText tree "Privileged" = Except.ok priv ∧
      UnDocker.tagText tree "Network" = Except.ok net ∧
      UnDocker.tagText tree "CPUset" = Except.ok cpus ∧
      UnDocker.tagText tree "PostArgs" = Except.ok cmd ∧
      n = name ∧
      svc = { container_name := name, image := repo,
              privileged := !(priv == "false"),
              ports := cfg.ports, volumes := cfg.volumes,
              environment := dictUpdate cfg.environment ue,
              labels := dictUpdate cfg.labels ul,
              devices := cfg.devices, networks := [net],
              cpuset := cpus, command := cmd } := by
  unfold UnDocker.services at h
  obtain ⟨cfg, hcfg, h⟩ := bind_ok_inv h
  obtain ⟨ul, hul, h⟩ := bind_ok_inv h
  obtain ⟨ue, hue, h⟩ := bind_ok_inv h
  obtain ⟨key, hkey, h⟩ := bind_ok_inv h
  obtain ⟨cname, hcname, h⟩ := bind_ok_inv h
  obtain ⟨repo, hrepo, h⟩ := bind_ok_inv h
  obtain ⟨priv, hpriv, h⟩ := bind_ok_inv h
  obtain ⟨net, hnet, h⟩ := bind_ok_inv h
  obtain ⟨cpus, hcpus, h⟩ := bind_ok_inv h
  obtain ⟨cmd, hcmd, h⟩ := bind_ok_inv h
  simp only [pure, Except.pure, Except.ok.injEq, Prod.mk.injEq] at h
  have hkc : key = cname := by
    rw [hkey] at hcname
    exact (Except.ok.injEq _ _).mp hcname
  refine ⟨cfg, ul, ue, cname, repo, priv, net, cpus, cmd,
    hcfg, hul, hue, hkc ▸ hkey, hrepo, hpriv, hnet, hcpus, hcmd, ?_, ?_⟩
  · rw [← h.1, hkc]
  · exact h.2.symm

/-! ### C1: the Tag Reader on present and absent tags -/

/-- Counterexample to C1: on a template with no matching element, `_tag`
raises `AttributeError` (`find` returns `None` and `.text` is accessed on
it); it does not return the empty string as the claim states. -/
theorem tagText_missing_tag_errors :
    UnDocker.tagText [] "Privileged" = Except.error PyErr.attributeError ∧
    UnDocker.tagText [] "Privileged" ≠ Except.ok "" :=
  ⟨rfl, fun h => Except.noConfusion h⟩

/-- C1 (amended): when a matching element exists, `_tag` returns the first
match's text if that text is non-empty, and the empty string when the text
is absent or empty; when no matching element exists, `_tag` raises
`AttributeError` instead of returning the empty string. -/
theorem tagText_first_match_spec (tree : XMLTree) (t : String) :
    (ET.find tree t = none →
      UnDocker.tagText tree t = Except.error PyErr.attributeError) ∧
    (∀ el, ET.find tree t = some el →
      (∀ s, el.text = some s → s ≠ "" → UnDocker.tagText tree t = Except.ok s) ∧
      (pyTruthy el.text = false → UnDocker.tagText tree t = Except.ok "")) := by
  constructor
  · intro h
    simp [UnDocker.tagText, h]
  · intro el hel
    constructor
    · intro s hs hne
      simp [UnDocker.tagText, hel, hs, pyTruthy, hne]
    · intro hf
      simp [UnDocker.tagText, hel, hf]

theorem tagText_first_match_spec_witness :
    UnDocker.tagText [⟨"Name", [], some "myapp"⟩] "Name" = Except.ok "myapp" :=
  ((tagText_first_match_spec [⟨"Name", [], some "myapp"⟩] "Name").2
    ⟨"Name", [], some "myapp"⟩ rfl).1 "myapp" rfl (by decide)

/-! ### C2: the privileged flag -/

/-- A template carrying every singular tag the assembler reads, except
`Privileged`; `Name` has text `myapp`, the rest are empty. -/
def privCounterTree : XMLTree :=
  [⟨"Name", [], some "myapp"⟩, ⟨"Repository", [], none⟩,
   ⟨"Network", [], none⟩, ⟨"CPUset", [], none⟩, ⟨"PostArgs", [], none⟩,
   ⟨"Registry", [], none⟩, ⟨"Shell", [], none⟩, ⟨"Support", [], none⟩,
   ⟨"Project", [], none⟩, ⟨"Overview", [], none⟩, ⟨"Category", [], none⟩,
   ⟨"Icon", [], none⟩, ⟨"WebUI", [], none⟩, ⟨"TemplateURL", [], none⟩,
   ⟨"DateInstalled", [], none⟩, ⟨"DonateText", [], none⟩,
   ⟨"DonateLink", [], none⟩, ⟨"Requires", [], none⟩]

/-- Counterexample to C2: with the `Privileged` tag absent (all other tags
present), `services` raises `AttributeError` inside `_tag` and assembles no
service at all, rather than yielding `privileged = true` as claimed. -/
theorem services_missing_privileged_errors :
    UnDocker.services privCounterTree false = Except.error PyErr.attributeError ∧
    ¬ ∃ p, UnDocker.services privCounterTree false = Except.ok p := by
  constructor
  · rfl
  · rintro ⟨p, hp⟩
    rw [(by rfl :
      UnDocker.services privCounterTree false = Except.error PyErr.attributeError)] at hp
    exact Except.noConfusion hp

/-- C2 (amended): whenever the service is assembled at all (in particular
the `Privileged` tag element exists), `privileged` is true unless the tag's
text is exactly `false`: empty text or `no` give true, exactly `false`
gives false.  A template without the `Privileged` element instead raises
`AttributeError`. -/
theorem services_privileged_spec (tree : XMLTree) (cl : Bool) (n : String)
    (svc : UnDocker.Service)
    (h : UnDocker.services tree cl = Except.ok (n, svc)) :
    ∃ s, UnDocker.tagText tree "Privileged" = Except.ok s ∧
      svc.privileged = !(s == "false") ∧
      (svc.privileged = false ↔ s = "false") := by
  obtain ⟨cfg, ul, ue, name, repo, priv, net, cpus, cmd,
    _, _, _, _, _, hpriv, _, _, _, _, hsvc⟩ := services_ok_inv tree cl n svc h
  subst hsvc
  refine ⟨priv, hpriv, rfl, ?_⟩
  by_cases hp : priv = "false" <;> simp [hp]

/-- A well-formed template with `Privileged` text `no` and no Config
entries, together with the service record `services` assembles from it. -/
def witnessTree : XMLTree :=
  ⟨"Privileged", [], some "no"⟩ :: privCounterTree

/-- The service record assembled from `witnessTree`. -/
def witnessSvc : UnDocker.Service :=
  { container_name := "myapp", image := "", privileged := true,
    ports := [], volumes := [],
    environment := [(some "TZ", "UTC"), (some "HOST_OS", "Unraid"),
                    (some "HOST_HOSTNAME", "myapp"),
                    (some "HOST_CONTAINERNAME", "myapp")],
    labels := [(some "net.unraid.docker.registry", some ""),
               (some "net.unraid.docker.shell", some ""),
               (some "net.unraid.docker.support", some ""),
               (some "net.unraid.docker.project", some ""),
               (some "net.unraid.docker.overview", some ""),
               (some "net.unraid.docker.category", some ""),
               (some "net.unraid.docker.icon", some ""),
               (some "net.unraid.docker.webui", some ""),
               (some "net.unraid.docker.managed", some "compose"),
               (some "net.unraid.docker.template", some ""),
               (some "net.unraid.docker.installed", some ""),
               (some "net.unraid.docker.donate.text", some ""),
               (some "net.unraid.docker.donate.link", some ""),
               (some "net.unraid.docker.requires", some "")],
    devices := [], networks := [""], cpuset := "", command := "" }

theorem services_privileged_spec_witness :
    ∃ s, UnDocker.tagText witnessTree "Privileged" = Except.ok s ∧
      witnessSvc.privileged = !(s == "false") ∧
      (witnessSvc.privileged = false ↔ s = "false") :=
  services_privileged_spec witnessTree false "myapp" witnessSvc rfl

/-! ### C3: Port-type Config entries -/

/-- C3: for a `Port`-type entry the classifier appends the record
`{target = int(Target), published = int(effectiveValue),
protocol = Mode-or-empty}` to the ports list and touches no other typed
collection; when `int` fails on `Target` (absent or non-numeric) or on the
effective value, the whole classification step fails with that
conversion/type error instead of coercing. -/
theorem configStep_port_spec (cl : Bool) (st : UnDocker.Configs) (c : Element)
    (nm v : String) (hName : attrGet c "Name" = some nm)
    (hType : attrGet c "Type" = some "Port")
    (hv : UnDocker.effValue c = Except.ok v) :
    (∀ tgt pub, pyInt (attrGet c "Target") = Except.ok tgt →
       pyIntOfString v = Except.ok pub →
       ∃ st2, UnDocker.configStep cl st c = Except.ok st2 ∧
         st2.ports = st.ports ++ [⟨tgt, pub, UnDocker.modeOrEmpty c⟩] ∧
         st2.volumes = st.volumes ∧ st2.devices = st.devices ∧
         st2.environment = st.environment) ∧
    (∀ e, pyInt (attrGet c "Target") = Except.error e →
       UnDocker.configStep cl st c = Except.error e) ∧
    (∀ tgt e, pyInt (attrGet c "Target") = Except.ok tgt →
       pyIntOfString v = Except.error e →
       UnDocker.configStep cl st c = Except.error e) := by
  refine ⟨?_, ?_, ?_⟩
  · intro tgt pub ht hp
    cases cl with
    | false =>
      refine ⟨{ st with ports := st.ports ++ [⟨tgt, pub, UnDocker.modeOrEmpty c⟩] },
        ?_, rfl, rfl, rfl, rfl⟩
      simp [UnDocker.configStep, hName, hType, hv, ht, hp, ok_bind]
    | true =>
      refine ⟨{ st with
          ports := st.ports ++ [⟨tgt, pub, UnDocker.modeOrEmpty c⟩],
          labels := dictUpdate st.labels
            (UnDocker.extendedLabels
              ("net.unraid.docker.config." ++ replaceSpaces nm) c) },
        ?_, rfl, rfl, rfl, rfl⟩
      simp [UnDocker.configStep, hName, hType, hv, ht, hp, ok_bind]
  · intro e ht
    simp [UnDocker.configStep, hName, hType, hv, ht, ok_bind, error_bind]
  · intro tgt e ht hp
    simp [UnDocker.configStep, hName, hType, hv, ht, hp, ok_bind, error_bind]

/-- A concrete `Port` Config entry exercising C3. -/
def portEntry : Element :=
  ⟨"Config",
   [("Name", "Web Port"), ("Type", "Port"), ("Target", "8080"), ("Mode", "tcp")],
   some "8081"⟩

theorem configStep_port_spec_witness :
    ∃ st2, UnDocker.configStep false UnDocker.emptyConfigs portEntry = Except.ok st2 ∧
      st2.ports = UnDocker.emptyConfigs.ports ++
        [⟨8080, 8081, UnDocker.modeOrEmpty portEntry⟩] ∧
      st2.volumes = UnDocker.emptyConfigs.volumes ∧
      st2.devices = UnDocker.emptyConfigs.devices ∧
      st2.environment = UnDocker.emptyConfigs.environment :=
  (configStep_port_spec false UnDocker.emptyConfigs portEntry "Web Port" "8081"
    rfl rfl rfl).1 8080 8081 rfl rfl

/-! ### C4: the effective value of a Config entry -/

/-- The character-level fold underlying `escapeDollar`. -/
def escFold (l : List Char) : List Char :=
  l.foldr (fun c acc => if c = '$' then '$' :: '$' :: acc else c :: acc) []

theorem escFold_count (l : List Char) :
    (escFold l).count '$' = 2 * l.count '$' := by
  induction l with
  | nil => rfl
  | cons c rest ih =>
    by_cases hc : c = '$'
    · subst hc
      simp only [escFold, List.foldr_cons, if_pos rfl] at *
      simp [List.count_cons, ih]
      ring
    · simp only [escFold, List.foldr_cons, if_neg hc] at *
      simp [List.count_cons, hc, ih]

theorem escFold_filter (l : List Char) :
    (escFold l).filter (fun ch => ch != '$') = l.filter (fun ch => ch != '$') := by
  induction l with
  | nil => rfl
  | cons c rest ih =>
    by_cases hc : c = '$'
    · subst hc
      simp only [escFold, List.foldr_cons, if_pos rfl] at *
      simp [List.filter_cons, ih]
    · simp only [escFold, List.foldr_cons, if_neg hc] at *
      simp [List.filter_cons, hc, ih]

/-- C4: the effective value is the entry text when present and non-empty and
the `Default` attribute otherwise, with the dollar escape applied exactly
once to whichever was chosen; the escape doubles every `$` character and
leaves all other characters unchanged; and a `Variable`-type entry writes
exactly this effective value into the environment downstream. -/
theorem effective_value_spec (c : Element) :
    (∀ t, c.text = some t → t ≠ "" →
       UnDocker.effValue c = Except.ok (escapeDollar t)) ∧
    (pyTruthy c.text = false → ∀ d, attrGet c "Default" = some d →
       UnDocker.effValue c = Except.ok (escapeDollar d)) ∧
    (∀ s, (escapeDollar s).data.count '$' = 2 * s.data.count '$' ∧
       (escapeDollar s).data.filter (fun ch => ch != '$') =
         s.data.filter (fun ch => ch != '$')) ∧
    (∀ (cl : Bool) (st : UnDocker.Configs) (nm v : String),
       attrGet c "Name" = some nm → attrGet c "Type" = some "Variable" →
       UnDocker.effValue c = Except.ok v →
       ∃ st2, UnDocker.configStep cl st c = Except.ok st2 ∧
         st2.environment = dictSet st.environment (attrGet c "Target") v ∧
         st2.ports = st.ports ∧ st2.volumes = st.volumes ∧
         st2.devices = st.devices) := by
  refine ⟨?_, ?_, ?_, ?_⟩
  · intro t ht hne
    simp [UnDocker.effValue, ht, pyTruthy, hne]
  · intro hf d hd
    simp [UnDocker.effValue, hf, hd]
  · intro s
    exact ⟨escFold_count s.data, escFold_filter s.data⟩
  · intro cl st nm v hName hType hv
    cases cl with
    | false =>
      refine ⟨{ st with
          environment := dictSet st.environment (attrGet c "Target") v },
        ?_, rfl, rfl, rfl, rfl⟩
      simp [UnDocker.configStep, hName, hType, hv, ok_bind]
    | true =>
      refine ⟨{ st with
          environment := dictSet st.environment (attrGet c "Target") v,
          labels := dictUpdate st.labels
            (UnDocker.extendedLabels
              ("net.unraid.docker.config." ++ replaceSpaces nm) c) },
        ?_, rfl, rfl, rfl, rfl⟩
      simp [UnDocker.configStep, hName, hType, hv, ok_bind]

/-- A concrete `Variable` Config entry whose text holds a `$`. -/
def varEntry : Element :=
  ⟨"Config", [("Name", "Home Dir"), ("Type", "Variable"), ("Target", "HOMEDIR")],
   some "$HOME"⟩

theorem effective_value_spec_witness :
    UnDocker.effValue varEntry = Except.ok (escapeDollar "$HOME") ∧
    escapeDollar "$HOME" = "$$HOME" ∧
    ∃ st2, UnDocker.configStep false UnDocker.emptyConfigs varEntry = Except.ok st2 ∧
      st2.environment = dictSet UnDocker.emptyConfigs.environment
        (attrGet varEntry "Target") (escapeDollar "$HOME") ∧
      st2.ports = UnDocker.emptyConfigs.ports ∧
      st2.volumes = UnDocker.emptyConfigs.volumes ∧
      st2.devices = UnDocker.emptyConfigs.devices :=
  ⟨(effective_value_spec varEntry).1 "$HOME" rfl (by decide), rfl,
   (effective_value_spec varEntry).2.2.2 false UnDocker.emptyConfigs "Home Dir"
     (escapeDollar "$HOME") rfl rfl
     ((effective_value_spec varEntry).1 "$HOME" rfl (by decide))⟩

/-! ### C5: Path and Devices Config entries -/

/-- C5: a `Path`-type entry appends the volume spec
`effectiveValue:Target[:Mode]` and a `Devices`-type entry appends the same
shape to devices; the `:Mode` suffix appears only when the `Mode` attribute
is present, and an entry without `Mode` produces no trailing separator. -/
theorem configStep_path_devices_spec (cl : Bool) (st : UnDocker.Configs)
    (c : Element) (nm v tgt : String) (hName : attrGet c "Name" = some nm)
    (hv : UnDocker.effValue c = Except.ok v)
    (hTgt : attrGet c "Target" = some tgt) :
    (attrGet c "Type" = some "Path" →
       ∃ st2, UnDocker.configStep cl st c = Except.ok st2 ∧
         st2.volumes = st.volumes ++ [v ++ ":" ++ tgt ++ UnDocker.modeSuffix c] ∧
         (attrGet c "Mode" = none →
            st2.volumes = st.volumes ++ [v ++ ":" ++ tgt]) ∧
         st2.ports = st.ports ∧ st2.devices = st.devices ∧
         st2.environment = st.environment) ∧
    (attrGet c "Type" = some "Devices" →
       ∃ st2, UnDocker.configStep cl st c = Except.ok st2 ∧
         st2.devices = st.devices ++ [v ++ ":" ++ tgt ++ UnDocker.modeSuffix c] ∧
         (attrGet c "Mode" = none →
            st2.devices = st.devices ++ [v ++ ":" ++ tgt]) ∧
         st2.ports = st.ports ∧ st2.volumes = st.volumes ∧
         st2.environment = st.environment) ∧
    (attrGet c "Mode" = none → UnDocker.modeSuffix c = "") ∧
    (∀ m, attrGet c "Mode" = some m → m ≠ "" →
       UnDocker.modeSuffix c = ":" ++ m) ∧
    (UnDocker.modeSuffix c ≠ "" → ∃ m, attrGet c "Mode" = some m) := by
  have hsuf : attrGet c "Mode" = none → UnDocker.modeSuffix c = "" := by
    intro hm
    simp [UnDocker.modeSuffix, hm, pyTruthy]
  refine ⟨?_, ?_, hsuf, ?_, ?_⟩
  · intro hType
    cases cl with
    | false =>
      refine ⟨{ st with
          volumes := st.volumes ++ [v ++ ":" ++ tgt ++ UnDocker.modeSuffix c] },
        ?_, rfl, ?_, rfl, rfl, rfl⟩
      · simp [UnDocker.configStep, hName, hType, hv, hTgt, pyFStr, ok_bind]
      · intro hm
        simp [hsuf hm]
    | true =>
      refine ⟨{ st with
          volumes := st.volumes ++ [v ++ ":" ++ tgt ++ UnDocker.modeSuffix c],
          labels := dictUpdate st.labels
            (UnDocker.extendedLabels
              ("net.unraid.docker.config." ++ replaceSpaces nm) c) },
        ?_, rfl, ?_, rfl, rfl, rfl⟩
      · simp [UnDocker.configStep, hName, hType, hv, hTgt, pyFStr, ok_bind]
      · intro hm
        simp [hsuf hm]
  · intro hType
    cases cl with
    | false =>
      refine ⟨{ st with
          devices := st.devices ++ [v ++ ":" ++ tgt ++ UnDocker.modeSuffix c] },
        ?_, rfl, ?_, rfl, rfl, rfl⟩
      · simp [UnDocker.configStep, hName, hType, hv, hTgt, pyFStr, ok_bind]
      · intro hm
        simp [hsuf hm]
    | true =>
      refine ⟨{ st with
          devices := st.devices ++ [v ++ ":" ++ tgt ++ UnDocker.modeSuffix c],
          labels := dictUpdate st.labels
            (UnDocker.extendedLabels
              ("net.unraid.docker.config." ++ replaceSpaces nm) c) },
        ?_, rfl, ?_, rfl, rfl, rfl⟩
      · simp [UnDocker.configStep, hName, hType, hv, hTgt, pyFStr, ok_bind]
      · intro hm
        simp [hsuf hm]
  · intro m hm hne
    simp [UnDocker.modeSuffix, hm, pyTruthy, hne, pyFStr]
  · intro hne
    cases hm : attrGet c "Mode" with
    | none => exact absurd (hsuf hm) hne
    | some m => exact ⟨m, rfl⟩

/-- The spec's own example: a `Path` entry with no text, `Default=/data`,
`Target=/data`, no `Mode`. -/
def pathEntry : Element :=
  ⟨"Config", [("Name", "Data"), ("Type", "Path"), ("Target", "/data"),
    ("Default", "/data")], none⟩

theorem configStep_path_devices_spec_witness :
    ∃ st2, UnDocker.configStep false UnDocker.emptyConfigs pathEntry = Except.ok st2 ∧
      st2.volumes = UnDocker.emptyConfigs.volumes ++
        ["/data" ++ ":" ++ "/data" ++ UnDocker.modeSuffix pathEntry] ∧
      (attrGet pathEntry "Mode" = none →
         st2.volumes = UnDocker.emptyConfigs.volumes ++ ["/data" ++ ":" ++ "/data"]) ∧
      st2.ports = UnDocker.emptyConfigs.ports ∧
      st2.devices = UnDocker.emptyConfigs.devices ∧
      st2.environment = UnDocker.emptyConfigs.environment :=
  (configStep_path_devices_spec false UnDocker.emptyConfigs pathEntry
    "Data" "/data" "/data" rfl rfl rfl).1 rfl

/-! ### C7: extended configuration labels -/

/-- Left-cancellation for string concatenation. -/
theorem string_append_left_cancel {a b c : String} (h : a ++ b = a ++ c) :
    b = c := by
  have hd := congrArg String.data h
  simp only [String.data_append] at hd
  exact String.ext (List.append_cancel_left hd)

/-- Inversion of one successful classifier step, projected to the labels
collection: the label dict is first routed (changed only by a `Label`-type
entry) and then, exactly when the labels flag is set, updated with the five
extended labels of the entry. -/
theorem configStep_labels_inv (cl : Bool) (st : UnDocker.Configs) (c : Element)
    (st2 : UnDocker.Configs) (h : UnDocker.configStep cl st c = Except.ok st2) :
    ∃ nm v L,
      attrGet c "Name" = some nm ∧ UnDocker.effValue c = Except.ok v ∧
      (L = st.labels ∨ L = dictSet st.labels (attrGet c "Target") (some v)) ∧
      (attrGet c "Type" ≠ some "Label" → L = st.labels) ∧
      st2.labels =
        (if cl then
          dictUpdate L (UnDocker.extendedLabels
            ("net.unraid.docker.config." ++ replaceSpaces nm) c)
         else L) := by
  unfold UnDocker.configStep at h
  cases hN : attrGet c "Name" with
  | none =>
    rw [hN] at h
    simp only [error_bind] at h
    exact Except.noConfusion h
  | some nm =>
    rw [hN] at h
    simp only [ok_bind] at h
    cases hv : UnDocker.effValue c with
    | error e =>
      rw [hv] at h
      simp only [error_bind] at h
      exact Except.noConfusion h
    | ok v =>
      rw [hv] at h
      simp only [ok_bind] at h
      have hlabels : st2.labels =
          (if cl = true then
            dictUpdate
              (if (attrGet c "Type" == some "Label") = true then
                dictSet st.labels (attrGet c "Target") (some v)
               else st.labels)
              (UnDocker.extendedLabels
                ("net.unraid.docker.config." ++ replaceSpaces nm) c)
           else
            (if (attrGet c "Type" == some "Label") = true then
              dictSet st.labels (attrGet c "Target") (some v)
             else st.labels)) := by
        by_cases hP : (attrGet c "Type" == some "Port") = true
        · rw [if_pos hP] at h
          obtain ⟨tgt, _, h⟩ := bind_ok_inv h
          obtain ⟨pub, _, h⟩ := bind_ok_inv h
          simp only [pure, Except.pure, Except.ok.injEq] at h
          subst h
          simp [apply_ite UnDocker.Configs.labels, ite_self]
        · rw [if_neg hP] at h
          simp only [pure, Except.pure, Except.ok.injEq] at h
          subst h
          simp [apply_ite UnDocker.Configs.labels, ite_self]
      by_cases hL : (attrGet c "Type" == some "Label") = true
      · have hT : attrGet c "Type" = some "Label" := by simpa using hL
        refine ⟨nm, v, dictSet st.labels (attrGet c "Target") (some v),
          rfl, rfl, Or.inr rfl, fun hne => absurd hT hne, ?_⟩
        rw [hlabels]
        simp [hL]
      · refine ⟨nm, v, st.labels, rfl, rfl, Or.inl rfl, fun _ => rfl, ?_⟩
        rw [hlabels]
        simp [hL]

/-- C7: with the labels flag enabled every successfully classified entry,
whatever its `Type`, merges exactly the five extended label keys
`<header>.default`, `.description`, `.display`, `.required`, `.mask` on top
of the routed labels, each carrying the corresponding attribute verbatim
(`None` when absent); with the flag disabled the label dict can change only
through `Label`-type routing, so no extended key is added. -/
theorem configStep_extended_labels_spec (st : UnDocker.Configs) (c : Element)
    (nm : String) (hName : attrGet c "Name" = some nm) :
    (∀ st2, UnDocker.configStep true st c = Except.ok st2 →
       ∃ L v, UnDocker.effValue c = Except.ok v ∧
         (L = st.labels ∨ L = dictSet st.labels (attrGet c "Target") (some v)) ∧
         st2.labels = dictUpdate L (UnDocker.extendedLabels
           ("net.unraid.docker.config." ++ replaceSpaces nm) c) ∧
         dictGet st2.labels
             (some (("net.unraid.docker.config." ++ replaceSpaces nm) ++ ".default")) =
           some (attrGet c "Default") ∧
         dictGet st2.labels
             (some (("net.unraid.docker.config." ++ replaceSpaces nm) ++ ".description")) =
           some (attrGet c "Description") ∧
         dictGet st2.labels
             (some (("net.unraid.docker.config." ++ replaceSpaces nm) ++ ".display")) =
           some (attrGet c "Display") ∧
         dictGet st2.labels
             (some (("net.unraid.docker.config." ++ replaceSpaces nm) ++ ".required")) =
           some (attrGet c "Required") ∧
         dictGet st2.labels
             (some (("net.unraid.docker.config." ++ replaceSpaces nm) ++ ".mask")) =
           some (attrGet c "Mask")) ∧
    (∀ st2, UnDocker.configStep false st c = Except.ok st2 →
       ∃ v, UnDocker.effValue c = Except.ok v ∧
         (st2.labels = st.labels ∨
          st2.labels = dictSet st.labels (attrGet c "Target") (some v))) := by
  constructor
  · intro st2 h
    obtain ⟨nm2, v, L, hN2, hv, hL, _, hlab⟩ :=
      configStep_labels_inv true st c st2 h
    rw [hName] at hN2
    have hnm : nm = nm2 := (Option.some.injEq _ _).mp hN2
    rw [← hnm] at hlab
    rw [if_pos rfl] at hlab
    have hkne : ∀ s t : String, s ≠ t →
        (some (("net.unraid.docker.config." ++ replaceSpaces nm) ++ s) : Option String) ≠
          some (("net.unraid.docker.config." ++ replaceSpaces nm) ++ t) := by
      intro s t hst hk
      rw [Option.some.injEq] at hk
      exact hst (string_append_left_cancel hk)
    have hup : dictUpdate L (UnDocker.extendedLabels
        ("net.unraid.docker.config." ++ replaceSpaces nm) c) =
      dictSet (dictSet (dictSet (dictSet (dictSet L
        (some (("net.unraid.docker.config." ++ replaceSpaces nm) ++ ".default"))
          (attrGet c "Default"))
        (some (("net.unraid.docker.config." ++ replaceSpaces nm) ++ ".description"))
          (attrGet c "Description"))
        (some (("net.unraid.docker.config." ++ replaceSpaces nm) ++ ".display"))
          (attrGet c "Display"))
        (some (("net.unraid.docker.config." ++ replaceSpaces nm) ++ ".required"))
          (attrGet c "Required"))
        (some (("net.unraid.docker.config." ++ replaceSpaces nm) ++ ".mask"))
          (attrGet c "Mask") := rfl
    refine ⟨L, v, hv, hL, hlab, ?_, ?_, ?_, ?_, ?_⟩ <;> rw [hlab, hup]
    · rw [dictGet_dictSet_ne _ _ _ _ (hkne ".default" ".mask" (by decide)),
        dictGet_dictSet_ne _ _ _ _ (hkne ".default" ".required" (by decide)),
        dictGet_dictSet_ne _ _ _ _ (hkne ".default" ".display" (by decide)),
        dictGet_dictSet_ne _ _ _ _ (hkne ".default" ".description" (by decide)),
        dictGet_dictSet_self]
    · rw [dictGet_dictSet_ne _ _ _ _ (hkne ".description" ".mask" (by decide)),
        dictGet_dictSet_ne _ _ _ _ (hkne ".description" ".required" (by decide)),
        dictGet_dictSet_ne _ _ _ _ (hkne ".description" ".display" (by decide)),
        dictGet_dictSet_self]
    · rw [dictGet_dictSet_ne _ _ _ _ (hkne ".display" ".mask" (by decide)),
        dictGet_dictSet_ne _ _ _ _ (hkne ".display" ".required" (by decide)),
        dictGet_dictSet_self]
    · rw [dictGet_dictSet_ne _ _ _ _ (hkne ".required" ".mask" (by decide)),
        dictGet_dictSet_self]
    · rw [dictGet_dictSet_self]
  · intro st2 h
    obtain ⟨nm2, v, L, _, hv, hL, _, hlab⟩ :=
      configStep_labels_inv false st c st2 h
    rw [if_neg (by simp)] at hlab
    exact ⟨v, hv, hlab ▸ hL⟩

theorem configStep_extended_labels_spec_witness :
    (∃ L v, UnDocker.effValue varEntry = Except.ok v ∧
       (L = UnDocker.emptyConfigs.labels ∨
        L = dictSet UnDocker.emptyConfigs.labels (attrGet varEntry "Target") (some v)) ∧
       (UnDocker.extendedLabels "net.unraid.docker.config.Home_Dir" varEntry) =
         dictUpdate L (UnDocker.extendedLabels
           ("net.unraid.docker.config." ++ replaceSpaces "Home Dir") varEntry) ∧
       dictGet (UnDocker.extendedLabels "net.unraid.docker.config.Home_Dir" varEntry)
           (some ("net.unraid.docker.config." ++ replaceSpaces "Home Dir" ++ ".default")) =
         some (attrGet varEntry "Default") ∧
       dictGet (UnDocker.extendedLabels "net.unraid.docker.config.Home_Dir" varEntry)
           (some ("net.unraid.docker.config." ++ replaceSpaces "Home Dir" ++ ".description")) =
         some (attrGet varEntry "Description") ∧
       dictGet (UnDocker.extendedLabels "net.unraid.docker.config.Home_Dir" varEntry)
           (some ("net.unraid.docker.config." ++ replaceSpaces "Home Dir" ++ ".display")) =
         some (attrGet varEntry "Display") ∧
       dictGet (UnDocker.extendedLabels "net.unraid.docker.config.Home_Dir" varEntry)
           (some ("net.unraid.docker.config." ++ replaceSpaces "Home Dir" ++ ".required")) =
         some (attrGet varEntry "Required") ∧
       dictGet (UnDocker.extendedLabels "net.unraid.docker.config.Home_Dir" varEntry)
           (some ("net.unraid.docker.config." ++ replaceSpaces "Home Dir" ++ ".mask")) =
         some (attrGet varEntry "Mask")) := by
  have hlab : ∀ st2, UnDocker.configStep true UnDocker.emptyConfigs varEntry =
      Except.ok st2 → st2.labels =
        UnDocker.extendedLabels "net.unraid.docker.config.Home_Dir" varEntry := by
    intro st2 hst
    have : st2 = { UnDocker.emptyConfigs with
        environment := [(some "HOMEDIR", "$$HOME")],
        labels := UnDocker.extendedLabels "net.unraid.docker.config.Home_Dir" varEntry } := by
      have hrfl : UnDocker.configStep true UnDocker.emptyConfigs varEntry =
          Except.ok { UnDocker.emptyConfigs with
            environment := [(some "HOMEDIR", "$$HOME")],
            labels := UnDocker.extendedLabels "net.unraid.docker.config.Home_Dir" varEntry } := by
        rfl
      rw [hrfl] at hst
      exact ((Except.ok.injEq _ _).mp hst).symm
    rw [this]
  simpa using
    (hlab _ rfl) ▸
      (configStep_extended_labels_spec UnDocker.emptyConfigs varEntry "Home Dir" rfl).1
        { UnDocker.emptyConfigs with
          environment := [(some "HOMEDIR", "$$HOME")],
          labels := UnDocker.extendedLabels "net.unraid.docker.config.Home_Dir" varEntry }
        rfl

/-! ### C6: synthesized labels and environment win on collision -/

/-- Inversion of a successful `_unraid_labels` call: the result is the
14-entry dict literal of lines 57-72. -/
theorem unraidLabels_ok_inv (tree : XMLTree)
    (ul : List (Option String × Option String))
    (h : UnDocker.unraidLabels tree = Except.ok ul) :
    ∃ registry shell support project overview category icon webui template
        installed dtext dlink requires,
      ul = [(some "net.unraid.docker.registry", some registry),
            (some "net.unraid.docker.shell", some shell),
            (some "net.unraid.docker.support", some support),
            (some "net.unraid.docker.project", some project),
            (some "net.unraid.docker.overview", some overview),
            (some "net.unraid.docker.category", some category),
            (some "net.unraid.docker.icon", some icon),
            (some "net.unraid.docker.webui", some webui),
            (some "net.unraid.docker.managed", some "compose"),
            (some "net.unraid.docker.template", some template),
            (some "net.unraid.docker.installed", some installed),
            (some "net.unraid.docker.donate.text", some dtext),
            (some "net.unraid.docker.donate.link", some dlink),
            (some "net.unraid.docker.requires", some requires)] := by
  unfold UnDocker.unraidLabels at h
  obtain ⟨registry, _, h⟩ := bind_ok_inv h
  obtain ⟨shell, _, h⟩ := bind_ok_inv h
  obtain ⟨support, _, h⟩ := bind_ok_inv h
  obtain ⟨project, _, h⟩ := bind_ok_inv h
  obtain ⟨overview, _, h⟩ := bind_ok_inv h
  obtain ⟨category, _, h⟩ := bind_ok_inv h
  obtain ⟨icon, _, h⟩ := bind_ok_inv h
  obtain ⟨webui, _, h⟩ := bind_ok_inv h
  obtain ⟨template, _, h⟩ := bind_ok_inv h
  obtain ⟨installed, _, h⟩ := bind_ok_inv h
  obtain ⟨dtext, _, h⟩ := bind_ok_inv h
  obtain ⟨dlink, _, h⟩ := bind_ok_inv h
  obtain ⟨requires, _, h⟩ := bind_ok_inv h
  simp only [pure, Except.pure, Except.ok.injEq] at h
  exact ⟨registry, shell, support, project, overview, category, icon, webui,
    template, installed, dtext, dlink, requires, h.symm⟩

/-- Inversion of a successful `_unraid_environment` call: the result is the
4-entry dict literal of lines 80-85, with both host names read from the
`Name` tag. -/
theorem unraidEnvironment_ok_inv (tree : XMLTree)
    (ue : List (Option String × String))
    (h : UnDocker.unraidEnvironment tree = Except.ok ue) :
    ∃ name, UnDocker.tagText tree "Name" = Except.ok name ∧
      ue = [(some "TZ", "UTC"), (some "HOST_OS", "Unraid"),
            (some "HOST_HOSTNAME", name), (some "HOST_CONTAINERNAME", name)] := by
  unfold UnDocker.unraidEnvironment at h
  obtain ⟨name, hname, h⟩ := bind_ok_inv h
  obtain ⟨name2, hname2, h⟩ := bind_ok_inv h
  rw [hname] at hname2
  have hn : name = name2 := (Except.ok.injEq _ _).mp hname2
  subst hn
  simp only [pure, Except.pure, Except.ok.injEq] at h
  exact ⟨name, hname, h.symm⟩

/-- C6: in the assembled service the synthesized labels and environment are
applied after the classifier's, so every synthesized binding survives into
the output (it wins any key collision); in particular the constant entries
`net.unraid.docker.managed = compose`, `TZ = UTC`, `HOST_OS = Unraid` are
present, and `HOST_HOSTNAME`/`HOST_CONTAINERNAME` both carry the `Name`
tag's text. -/
theorem services_synthesized_spec (tree : XMLTree) (cl : Bool) (n : String)
    (svc : UnDocker.Service)
    (h : UnDocker.services tree cl = Except.ok (n, svc)) :
    ∃ name ul ue,
      UnDocker.tagText tree "Name" = Except.ok name ∧
      UnDocker.unraidLabels tree = Except.ok ul ∧
      UnDocker.unraidEnvironment tree = Except.ok ue ∧
      (∀ k v, dictGet ul k = some v → dictGet svc.labels k = some v) ∧
      (∀ k v, dictGet ue k = some v → dictGet svc.environment k = some v) ∧
      dictGet svc.labels (some "net.unraid.docker.managed") =
        some (some "compose") ∧
      dictGet svc.environment (some "TZ") = some "UTC" ∧
      dictGet svc.environment (some "HOST_OS") = some "Unraid" ∧
      dictGet svc.environment (some "HOST_HOSTNAME") = some name ∧
      dictGet svc.environment (some "HOST_CONTAINERNAME") = some name := by
  obtain ⟨cfg, ul, ue, name, repo, priv, net, cpus, cmd,
    hcfg, hul, hue, hname, _, _, _, _, _, _, hsvc⟩ :=
    services_ok_inv tree cl n svc h
  obtain ⟨registry, shell, support, project, overview, category, icon, webui,
    template, installed, dtext, dlink, requires, hulshape⟩ :=
    unraidLabels_ok_inv tree ul hul
  obtain ⟨name2, hname2, hueshape⟩ := unraidEnvironment_ok_inv tree ue hue
  rw [hname] at hname2
  have hn : name = name2 := (Except.ok.injEq _ _).mp hname2
  subst hn
  have hndl : (ul.map Prod.fst).Nodup := by
    rw [hulshape]
    simp only [List.map_cons, List.map_nil]
    decide
  have hnde : (ue.map Prod.fst).Nodup := by
    rw [hueshape]
    simp only [List.map_cons, List.map_nil]
    decide
  have hlab : svc.labels = dictUpdate cfg.labels ul := by rw [hsvc]
  have henv : svc.environment = dictUpdate cfg.environment ue := by rw [hsvc]
  have hwinl : ∀ k v, dictGet ul k = some v → dictGet svc.labels k = some v := by
    intro k v hkv
    rw [hlab]
    exact dictGet_dictUpdate_mem ul hndl k v hkv cfg.labels
  have hwine : ∀ k v, dictGet ue k = some v → dictGet svc.environment k = some v := by
    intro k v hkv
    rw [henv]
    exact dictGet_dictUpdate_mem ue hnde k v hkv cfg.environment
  refine ⟨name, ul, ue, hname, hul, hue, hwinl, hwine, ?_, ?_, ?_, ?_, ?_⟩
  · refine hwinl _ _ ?_
    rw [hulshape]
    rfl
  · refine hwine _ _ ?_
    rw [hueshape]
    rfl
  · refine hwine _ _ ?_
    rw [hueshape]
    rfl
  · refine hwine _ _ ?_
    rw [hueshape]
    rfl
  · refine hwine _ _ ?_
    rw [hueshape]
    rfl

theorem services_synthesized_spec_witness :
    ∃ name ul ue,
      UnDocker.tagText witnessTree "Name" = Except.ok name ∧
      UnDocker.unraidLabels witnessTree = Except.ok ul ∧
      UnDocker.unraidEnvironment witnessTree = Except.ok ue ∧
      (∀ k v, dictGet ul k = some v → dictGet witnessSvc.labels k = some v) ∧
      (∀ k v, dictGet ue k = some v → dictGet witnessSvc.environment k = some v) ∧
      dictGet witnessSvc.labels (some "net.unraid.docker.managed") =
        some (some "compose") ∧
      dictGet witnessSvc.environment (some "TZ") = some "UTC" ∧
      dictGet witnessSvc.environment (some "HOST_OS") = some "Unraid" ∧
      dictGet witnessSvc.environment (some "HOST_HOSTNAME") = some name ∧
      dictGet witnessSvc.environment (some "HOST_CONTAINERNAME") = some name :=
  services_synthesized_spec witnessTree false "myapp" witnessSvc rfl

/-! ### C9: the order of the classifier's returned tuple -/

/-- A template holding one `Devices`-type Config entry. -/
def devTree : XMLTree :=
  [⟨"Config", [("Name", "GPU"), ("Type", "Devices"), ("Target", "/dev/dri"),
    ("Default", "/dev/dri")], none⟩]

/-- Counterexample to C9: on a template with a single `Devices` entry the
classifier's returned tuple carries the device spec in its FIFTH component
and the (empty) label mapping in its FOURTH; the claimed order
`(ports, volumes, environment, devices, labels)` would require the device
spec in the fourth position, so the claim is false — the actual order is
`(ports, volumes, environment, labels, devices)` (line 174). -/
theorem configsTuple_order_counterexample :
    (UnDocker.configsTuple devTree false).map (fun r => r.2.2.2.2) =
      Except.ok ["/dev/dri:/dev/dri"] ∧
    (UnDocker.configsTuple devTree false).map (fun r => r.2.2.2.1) =
      Except.ok ([] : List (Option String × Option String)) ∧
    UnDocker.configsTuple devTree false =
      Except.ok ([], [], [], [], ["/dev/dri:/dev/dri"]) :=
  ⟨rfl, rfl, rfl⟩

/-- C9 (amended): `_configs` returns the tuple
`(ports, volumes, environment, labels, devices)` — labels fourth, devices
fifth — and `services` unpacks it in the same order, so every collection
still reaches its correct field of the service definition. -/
theorem configs_tuple_order_spec (tree : XMLTree) (cl : Bool) (n : String)
    (svc : UnDocker.Service)
    (h : UnDocker.services tree cl = Except.ok (n, svc)) :
    ∃ p vl env lab dev,
      UnDocker.configsTuple tree cl = Except.ok (p, vl, env, lab, dev) ∧
      svc.ports = p ∧ svc.volumes = vl ∧ svc.devices = dev ∧
      (∃ ue, UnDocker.unraidEnvironment tree = Except.ok ue ∧
         svc.environment = dictUpdate env ue) ∧
      (∃ ul, UnDocker.unraidLabels tree = Except.ok ul ∧
         svc.labels = dictUpdate lab ul) := by
  obtain ⟨cfg, ul, ue, name, repo, priv, net, cpus, cmd,
    hcfg, hul, hue, _, _, _, _, _, _, _, hsvc⟩ :=
    services_ok_inv tree cl n svc h
  refine ⟨cfg.ports, cfg.volumes, cfg.environment, cfg.labels, cfg.devices,
    ?_, ?_, ?_, ?_, ⟨ue, hue, ?_⟩, ⟨ul, hul, ?_⟩⟩ <;>
    simp [UnDocker.configsTuple, hcfg, hsvc, Except.map]

theorem configs_tuple_order_spec_witness :
    ∃ p vl env lab dev,
      UnDocker.configsTuple witnessTree false = Except.ok (p, vl, env, lab, dev) ∧
      witnessSvc.ports = p ∧ witnessSvc.volumes = vl ∧ witnessSvc.devices = dev ∧
      (∃ ue, UnDocker.unraidEnvironment witnessTree = Except.ok ue ∧
         witnessSvc.environment = dictUpdate env ue) ∧
      (∃ ul, UnDocker.unraidLabels witnessTree = Except.ok ul ∧
         witnessSvc.labels = dictUpdate lab ul) :=
  configs_tuple_order_spec witnessTree false "myapp" witnessSvc rfl

/-! ### C10: a Config entry with no text and no Default aborts classification -/

/-- A Config entry whose text is falsy and whose `Default` attribute is
absent makes the loop body fail from every intermediate state: either the
`Name` lookup already raises, or the value computation dereferences
`None.replace`. -/
theorem configStep_fails_of_missing_default (cl : Bool) (c : Element)
    (htext : pyTruthy c.text = false) (hdef : attrGet c "Default" = none) :
    ∀ st, ∃ e, UnDocker.configStep cl st c = Except.error e := by
  intro st
  cases hN : attrGet c "Name" with
  | none =>
    exact ⟨PyErr.attributeError, by simp [UnDocker.configStep, hN, error_bind]⟩
  | some nm =>
    have hv : UnDocker.effValue c = Except.error PyErr.attributeError := by
      simp [UnDocker.effValue, htext, hdef]
    exact ⟨PyErr.attributeError,
      by simp [UnDocker.configStep, hN, hv, ok_bind, error_bind]⟩

/-- A monadic fold over `Except` fails whenever some list element makes the
step fail from every state. -/
theorem foldlM_error_of_mem {σ α : Type} (step : σ → α → Except PyErr σ)
    (c : α) (hfail : ∀ st, ∃ e, step st c = Except.error e) :
    ∀ (l : List α), c ∈ l → ∀ st, ∃ e, l.foldlM step st = Except.error e := by
  intro l
  induction l with
  | nil => intro hc; cases hc
  | cons x xs ih =>
    intro hc st
    rw [List.foldlM_cons]
    rcases List.mem_cons.mp hc with hx | hxs
    · subst hx
      obtain ⟨e, he⟩ := hfail st
      exact ⟨e, by rw [he]; rfl⟩
    · cases hstep : step st x with
      | error e => exact ⟨e, rfl⟩
      | ok st2 =>
        obtain ⟨e, he⟩ := ih hxs st2
        exact ⟨e, by rw [ok_bind]; exact he⟩

/-- C10: any template containing a `Config` entry whose text is absent or
empty and which has no `Default` attribute makes `_configs` raise before
returning any collections, and the whole conversion (`services`) aborts
with the same exception. -/
theorem configs_missing_default_errors (tree : XMLTree) (cl : Bool)
    (c : Element) (hc : c ∈ ET.findall tree "Config")
    (htext : pyTruthy c.text = false) (hdef : attrGet c "Default" = none) :
    ∃ e, UnDocker.configs tree cl = Except.error e ∧
      UnDocker.services tree cl = Except.error e := by
  obtain ⟨e, he⟩ :=
    foldlM_error_of_mem (UnDocker.configStep cl) c
      (configStep_fails_of_missing_default cl c htext hdef)
      (ET.findall tree "Config") hc UnDocker.emptyConfigs
  refine ⟨e, he, ?_⟩
  unfold UnDocker.services UnDocker.configs at *
  rw [he]
  rfl

/-- A template whose single Config entry has no text and no `Default`. -/
def badTree : XMLTree :=
  [⟨"Config", [("Name", "Bad"), ("Type", "Variable"), ("Target", "X")], none⟩]

theorem configs_missing_default_errors_witness :
    ∃ e, UnDocker.configs badTree false = Except.error e ∧
      UnDocker.services badTree false = Except.error e :=
  configs_missing_default_errors badTree false
    ⟨"Config", [("Name", "Bad"), ("Type", "Variable"), ("Target", "X")], none⟩
    (by decide) rfl rfl

/-! ### C8: the extra-params parser raises NameError on any matched flag -/

/-- C8 (code bug): on the input string `--restart always` the parser matches
the `--restart` flag, and the loop body then dereferences the global `args`,
which is defined nowhere in the module, raising `NameError`; the mapping
with key `restart` claimed by the spec is never produced. -/
theorem extraParams_restart_raises_nameError :
    UnDocker.extraParams "--restart always" = Except.error PyErr.nameError ∧
    UnDocker.extraParams "--net br0" = Except.error PyErr.nameError ∧
    UnDocker.extraParams "--foo bar baz" = Except.ok [] := by
  refine ⟨?_, ?_, ?_⟩ <;> rfl
